import Mathlib

/-
Verification development for the kithairon echo_utils repository
(src/kithairon/labware.py and src/kithairon/surveys/platesurvey.py).

The two schema files are shallowly embedded here:
  * pure Python functions become Lean functions;
  * pydantic field validators (BeforeValidator) and serializers
    (PlainSerializer) become explicit encode/decode functions;
  * pydantic model construction / XML parse becomes a function returning
    Except String Document; raising an exception becomes Except.error;
  * Python floats in these files are only stored, compared to 0 and passed
    through, so they are represented as rationals;
  * XML attribute presence is represented as Option: a missing attribute
    is Option.none.  pydantic_xml omits an attribute whose serialized
    value is None, and a required attribute that is missing makes the
    parse fail; both behaviours are modelled explicitly below.
  * pydantic BeforeValidator functions receive the raw attribute value,
    which on the XML parse path is a string and on the programmatic path
    is whatever Python value the caller supplied.  Python dynamic
    comparison between values of different types is modelled by PyVal.
-/

/-- A Python value as seen by a BeforeValidator: a string (the XML parse
path always supplies strings), a number, or None. -/
inductive PyVal where
  | str : String → PyVal
  | num : ℚ → PyVal
  | pynone : PyVal
deriving Repr, DecidableEq

/-- Python equality between such values: values of different types are
never equal (in particular the string "0" is not equal to the number 0,
and None is not equal to 0). -/
def pyEq : PyVal → PyVal → Bool
  | PyVal.str a, PyVal.str b => a == b
  | PyVal.num a, PyVal.num b => a == b
  | PyVal.pynone, PyVal.pynone => true
  | _, _ => false

/-- Accumulate decimal digits; fails on a non-digit character. -/
def parseNatCore : List Char → Nat → Option Nat
  | [], acc => some acc
  | c :: cs, acc =>
    if c.isDigit then parseNatCore cs (acc * 10 + (c.toNat - 48))
    else Option.none

/-- Coercion of a decimal numeral string to a rational, modelling the
subset of Python float() syntax that the vendor files use (optional sign,
digits, optional fractional part). -/
def parseDecimal (s : String) : Option ℚ :=
  let cs := s.toList
  let signAndDigits : Bool × List Char :=
    match cs with
    | '-' :: rest => (true, rest)
    | _ => (false, cs)
  let neg := signAndDigits.1
  let cs2 := signAndDigits.2
  let intPart := cs2.takeWhile Char.isDigit
  let rest := cs2.dropWhile Char.isDigit
  if intPart.isEmpty then Option.none else
  match parseNatCore intPart 0 with
  | Option.none => Option.none
  | some ip =>
    let base : ℚ := ip
    match rest with
    | [] => some (if neg then -base else base)
    | '.' :: fracs =>
      if fracs.isEmpty then Option.none
      else match parseNatCore fracs 0 with
        | Option.none => Option.none
        | some fp =>
          let q : ℚ := base + (fp : ℚ) / ((10 : ℚ) ^ fracs.length)
          some (if neg then -q else q)
    | _ => Option.none

/-
Scalar codec layer, platesurvey.py lines 15-28.

Barcode = Annotated[str | None,
  PlainSerializer(lambda val: val if val is not None else "UnknownBarCode",
                  when_used="unless-none"),
  BeforeValidator(lambda val: val if val != "UnknownBarCode" else None)]

FloatNullZero = Annotated[float | None,
  BeforeValidator(lambda val: val if val != 0 else None),
  PlainSerializer(lambda val: val if val is not None else 0,
                  when_used="unless-none")]
-/

/-- BeforeValidator of the Barcode type: a value equal to the sentinel
string "UnknownBarCode" becomes None; every other value (including None
itself, which compares unequal to the sentinel) passes through. -/
def Barcode.validate (val : Option String) : Option String :=
  match val with
  | some s => if s != "UnknownBarCode" then some s else Option.none
  | Option.none => Option.none

/-- Serialization of a Barcode-typed field to its raw XML attribute.
The PlainSerializer lambda maps None to "UnknownBarCode", but it is
registered with when_used="unless-none", so pydantic skips it whenever
the value is None; the None value then reaches pydantic_xml, which omits
the attribute.  A non-None value goes through the lambda, which returns
it unchanged. -/
def Barcode.serialize (val : Option String) : Option String :=
  match val with
  | Option.none => Option.none
  | some s => some s

/-- BeforeValidator of the FloatNullZero type: lambda val: val if val != 0
else None, applied to the raw value.  On the XML parse path the raw value
is a string, and a Python string is never equal to the number 0, so the
zero test only ever fires for numeric inputs. -/
def floatNullZero.validate (val : PyVal) : PyVal :=
  if pyEq val (PyVal.num 0) then PyVal.pynone else val

/-- Pydantic lax coercion of the validated raw value into the declared
field type float-or-None: None is accepted as None, a number is accepted
as itself, a string is parsed as a decimal numeral. -/
def floatNullZero.coerce (val : PyVal) : Except String (Option ℚ) :=
  match val with
  | PyVal.pynone => Except.ok Option.none
  | PyVal.num q => Except.ok (some q)
  | PyVal.str s =>
    match parseDecimal s with
    | some q => Except.ok (some q)
    | Option.none => Except.error ("could not parse float: " ++ s)

/-- Full decode of a FloatNullZero field from a raw value: the
BeforeValidator runs first, then type coercion. -/
def floatNullZero.decode (val : PyVal) : Except String (Option ℚ) :=
  floatNullZero.coerce (floatNullZero.validate val)

/-- Serialization of a FloatNullZero field to its raw XML attribute.
The PlainSerializer lambda maps None to 0, but it is registered with
when_used="unless-none", so pydantic skips it whenever the value is
None; pydantic_xml then omits the attribute.  A present value passes
through the lambda unchanged and is written as that number. -/
def floatNullZero.serialize (val : Option ℚ) : Option PyVal :=
  match val with
  | Option.none => Option.none
  | some q => some (PyVal.num q)

/-
Survey schema model, platesurvey.py lines 31-111.
-/

/-- SignalFeature (tag "f"): one detected acoustic feature. -/
structure SignalFeature where
  feature_type : String
  tof : ℚ
  vpp : ℚ
deriving Repr, DecidableEq

/-- EchoSignal (tag "e"): one instrument-signal record with an ordered
feature list. -/
structure EchoSignal where
  signal_type : String
  transducer_x : ℚ
  transducer_y : ℚ
  transducer_z : ℚ
  features : List SignalFeature
deriving Repr, DecidableEq

/-- WellSurvey (tag "w"): one well's measurement record.  row and column
are NonNegativeInt, hence Nat; volume and current_volume use the
FloatNullZero convention, hence Option. -/
structure WellSurvey where
  row : Nat
  column : Nat
  well : String
  volume : Option ℚ
  current_volume : Option ℚ
  status : String
  fluid : String
  fluid_units : String
  meniscus_x : ℚ
  meniscus_y : ℚ
  fluid_composition : ℚ
  dmso_homogeneous : ℚ
  dmso_inhomogeneous : ℚ
  fluid_thickness : ℚ
  current_fluid_thickness : ℚ
  bottom_thickness : ℚ
  fluid_thickness_homogeneous : ℚ
  fluid_thickness_imhomogeneous : ℚ
  outlier : ℚ
  corrective_action : String
  echo_signal : EchoSignal
deriving Repr, DecidableEq

/-- EchoPlateSurveyXML (tag "platesurvey"): the survey document.  The
timestamp is modelled as the raw vendor date string (the datetime
parse/format layer is pydantic glue with a stable round trip and no
claim touches it). -/
structure EchoPlateSurvey where
  plate_type : String
  plate_barcode : Option String
  timestamp : String
  instrument_serial_number : String
  vtl : Int
  original : Int
  data_format_version : Int
  survey_rows : Int
  survey_columns : Int
  survey_total_wells : Int
  wells : List WellSurvey
  plate_name : Option String
  comment : Option String
deriving Repr, DecidableEq

/-- Error message of the check_number_of_wells validator. -/
def wellCountMsg (s : EchoPlateSurvey) : String :=
  "Number of well data items (" ++ toString s.wells.length
    ++ ") does not match reported (" ++ toString s.survey_total_wells ++ ")"

/-- model_validator check_number_of_wells (platesurvey.py lines 95-102):
raises ValueError when the number of wells differs from the declared
survey_total_wells, otherwise returns the model. -/
def EchoPlateSurvey.checkNumberOfWells (s : EchoPlateSurvey) :
    Except String EchoPlateSurvey :=
  if (s.wells.length : Int) != s.survey_total_wells then
    Except.error (wellCountMsg s)
  else
    Except.ok s

/-- model_validator check_data_format_version (platesurvey.py lines
104-111): logs a warning when data_format_version is not 1 and returns
the model unchanged; it never fails. -/
def EchoPlateSurvey.checkDataFormatVersion (s : EchoPlateSurvey) :
    Except String EchoPlateSurvey :=
  Except.ok s

/-- The model-validator chain run by pydantic on every construction of
the model, whether parsed from XML or built programmatically. -/
def EchoPlateSurvey.validate (s : EchoPlateSurvey) :
    Except String EchoPlateSurvey :=
  match s.checkNumberOfWells with
  | Except.error e => Except.error e
  | Except.ok s2 => s2.checkDataFormatVersion

/-
Raw XML attribute level of the survey document.  A raw element is a
record of Option-valued attributes (none = attribute absent) plus child
element lists.  Numeric attributes other than vl and cvl carry plain
typed values (their string-to-number coercion is standard pydantic lax
coercion, value-faithful for the well-formed numerals these files
contain); vl and cvl carry PyVal because the FloatNullZero
BeforeValidator inspects the raw value before coercion.
-/

/-- Raw "f" element. -/
structure RawFeature where
  t : Option String
  o : Option ℚ
  v : Option ℚ
deriving Repr, DecidableEq

/-- Raw "e" element. -/
structure RawSignal where
  t : Option String
  x : Option ℚ
  y : Option ℚ
  z : Option ℚ
  features : List RawFeature
deriving Repr, DecidableEq

/-- Raw "w" element. -/
structure RawWell where
  r : Option Int
  c : Option Int
  n : Option String
  vl : Option PyVal
  cvl : Option PyVal
  status : Option String
  fld : Option String
  fldu : Option String
  x : Option ℚ
  y : Option ℚ
  s : Option ℚ
  fsh : Option ℚ
  fsinh : Option ℚ
  t : Option ℚ
  ct : Option ℚ
  b : Option ℚ
  fth : Option ℚ
  ftinh : Option ℚ
  o : Option ℚ
  a : Option String
  e : Option RawSignal
deriving Repr, DecidableEq

/-- Raw "platesurvey" element. -/
structure RawSurvey where
  name : Option String
  barcode : Option String
  date : Option String
  serial_number : Option String
  vtl : Option Int
  original : Option Int
  frmt : Option Int
  rows : Option Int
  cols : Option Int
  totalWells : Option Int
  wells : List RawWell
  plate_name : Option String
  note : Option String
deriving Repr, DecidableEq

/-- Reading a required attribute: a missing required attribute is a
parse error naming the attribute. -/
def reqAttr {α : Type} (val : Option α) (name : String) : Except String α :=
  match val with
  | some v => Except.ok v
  | Option.none => Except.error ("missing required attribute: " ++ name)

/-- NonNegativeInt validation of an already-coerced integer. -/
def nonNegInt (i : Int) (name : String) : Except String Nat :=
  if 0 ≤ i then Except.ok i.toNat
  else Except.error ("attribute " ++ name ++ " must be non-negative")

/-- Structural parse of a raw "f" element into a SignalFeature. -/
def featureDecode (f : RawFeature) : Except String SignalFeature := do
  let feature_type ← reqAttr f.t "t"
  let tof ← reqAttr f.o "o"
  let vpp ← reqAttr f.v "v"
  pure { feature_type := feature_type, tof := tof, vpp := vpp }

/-- Structural parse of a raw "e" element into an EchoSignal; the
feature list is parsed in document order. -/
def signalDecode (e : RawSignal) : Except String EchoSignal := do
  let signal_type ← reqAttr e.t "t"
  let transducer_x ← reqAttr e.x "x"
  let transducer_y ← reqAttr e.y "y"
  let transducer_z ← reqAttr e.z "z"
  let features ← e.features.mapM featureDecode
  pure { signal_type := signal_type, transducer_x := transducer_x,
         transducer_y := transducer_y, transducer_z := transducer_z,
         features := features }

/-- Structural parse of a raw "w" element into a WellSurvey, running the
per-field codecs (NonNegativeInt for r and c, FloatNullZero for vl and
cvl). -/
def wellDecode (w : RawWell) : Except String WellSurvey := do
  let rRaw ← reqAttr w.r "r"
  let row ← nonNegInt rRaw "r"
  let cRaw ← reqAttr w.c "c"
  let column ← nonNegInt cRaw "c"
  let well ← reqAttr w.n "n"
  let vlRaw ← reqAttr w.vl "vl"
  let volume ← floatNullZero.decode vlRaw
  let cvlRaw ← reqAttr w.cvl "cvl"
  let current_volume ← floatNullZero.decode cvlRaw
  let status ← reqAttr w.status "status"
  let fluid ← reqAttr w.fld "fld"
  let fluid_units ← reqAttr w.fldu "fldu"
  let meniscus_x ← reqAttr w.x "x"
  let meniscus_y ← reqAttr w.y "y"
  let fluid_composition ← reqAttr w.s "s"
  let dmso_homogeneous ← reqAttr w.fsh "fsh"
  let dmso_inhomogeneous ← reqAttr w.fsinh "fsinh"
  let fluid_thickness ← reqAttr w.t "t"
  let current_fluid_thickness ← reqAttr w.ct "ct"
  let bottom_thickness ← reqAttr w.b "b"
  let fluid_thickness_homogeneous ← reqAttr w.fth "fth"
  let fluid_thickness_imhomogeneous ← reqAttr w.ftinh "ftinh"
  let outlier ← reqAttr w.o "o"
  let corrective_action ← reqAttr w.a "a"
  let eRaw ← reqAttr w.e "e"
  let echo_signal ← signalDecode eRaw
  pure { row := row, column := column, well := well, volume := volume,
         current_volume := current_volume, status := status, fluid := fluid,
         fluid_units := fluid_units, meniscus_x := meniscus_x,
         meniscus_y := meniscus_y, fluid_composition := fluid_composition,
         dmso_homogeneous := dmso_homogeneous,
         dmso_inhomogeneous := dmso_inhomogeneous,
         fluid_thickness := fluid_thickness,
         current_fluid_thickness := current_fluid_thickness,
         bottom_thickness := bottom_thickness,
         fluid_thickness_homogeneous := fluid_thickness_homogeneous,
         fluid_thickness_imhomogeneous := fluid_thickness_imhomogeneous,
         outlier := outlier, corrective_action := corrective_action,
         echo_signal := echo_signal }

/-- Structural parse and per-field decode of a raw "platesurvey" element
into the (not yet model-validated) document.  The wells list is decoded
in document order.  plate_name and note are optional attributes with
default None. -/
def surveyDecode (rsv : RawSurvey) : Except String EchoPlateSurvey := do
  let plate_type ← reqAttr rsv.name "name"
  let barcodeRaw ← reqAttr rsv.barcode "barcode"
  let plate_barcode := Barcode.validate (some barcodeRaw)
  let timestamp ← reqAttr rsv.date "date"
  let instrument_serial_number ← reqAttr rsv.serial_number "serial_number"
  let vtl ← reqAttr rsv.vtl "vtl"
  let original ← reqAttr rsv.original "original"
  let data_format_version ← reqAttr rsv.frmt "frmt"
  let survey_rows ← reqAttr rsv.rows "rows"
  let survey_columns ← reqAttr rsv.cols "cols"
  let survey_total_wells ← reqAttr rsv.totalWells "totalWells"
  let wells ← rsv.wells.mapM wellDecode
  pure { plate_type := plate_type, plate_barcode := plate_barcode,
         timestamp := timestamp,
         instrument_serial_number := instrument_serial_number,
         vtl := vtl, original := original,
         data_format_version := data_format_version,
         survey_rows := survey_rows, survey_columns := survey_columns,
         survey_total_wells := survey_total_wells, wells := wells,
         plate_name := rsv.plate_name, comment := rsv.note }

/-- EchoPlateSurveyXML.read_xml: structural parse, per-field decode,
then the model-validator chain.  Any failure aborts with an error and no
document is returned. -/
def surveyRead (rsv : RawSurvey) : Except String EchoPlateSurvey :=
  match surveyDecode rsv with
  | Except.error e => Except.error e
  | Except.ok s => s.validate

/-- Serialization of a SignalFeature to a raw "f" element. -/
def featureWrite (f : SignalFeature) : RawFeature :=
  { t := some f.feature_type, o := some f.tof, v := some f.vpp }

/-- Serialization of an EchoSignal to a raw "e" element, feature order
preserved. -/
def signalWrite (e : EchoSignal) : RawSignal :=
  { t := some e.signal_type, x := some e.transducer_x,
    y := some e.transducer_y, z := some e.transducer_z,
    features := e.features.map featureWrite }

/-- Serialization of a WellSurvey to a raw "w" element.  vl and cvl go
through the FloatNullZero serializer (absent values produce an omitted
attribute, see floatNullZero.serialize). -/
def wellWrite (w : WellSurvey) : RawWell :=
  { r := some (w.row : Int), c := some (w.column : Int), n := some w.well,
    vl := floatNullZero.serialize w.volume,
    cvl := floatNullZero.serialize w.current_volume,
    status := some w.status, fld := some w.fluid, fldu := some w.fluid_units,
    x := some w.meniscus_x, y := some w.meniscus_y,
    s := some w.fluid_composition, fsh := some w.dmso_homogeneous,
    fsinh := some w.dmso_inhomogeneous, t := some w.fluid_thickness,
    ct := some w.current_fluid_thickness, b := some w.bottom_thickness,
    fth := some w.fluid_thickness_homogeneous,
    ftinh := some w.fluid_thickness_imhomogeneous, o := some w.outlier,
    a := some w.corrective_action, e := some (signalWrite w.echo_signal) }

/-- EchoPlateSurveyXML.write_xml: serialization of the document to the
raw XML level, well order preserved.  The barcode goes through the
Barcode serializer (an absent barcode produces an omitted attribute, see
Barcode.serialize); plate_name and note are optional attributes omitted
when None. -/
def surveyWrite (s : EchoPlateSurvey) : RawSurvey :=
  { name := some s.plate_type, barcode := Barcode.serialize s.plate_barcode,
    date := some s.timestamp,
    serial_number := some s.instrument_serial_number,
    vtl := some s.vtl, original := some s.original,
    frmt := some s.data_format_version, rows := some s.survey_rows,
    cols := some s.survey_columns, totalWells := some s.survey_total_wells,
    wells := s.wells.map wellWrite, plate_name := s.plate_name,
    note := s.comment }

/-
Labware schema model, labware.py lines 9-182.
-/

/-- PlateInfo (tag "plateinfo", labware.py lines 9-38): one plate-type
definition in the generic (ELWX) variant, all fields stored. -/
structure PlateInfo where
  platetype : String
  plateformat : String
  usage : String
  fluid : Option String
  manufacturer : String
  lotnumber : String
  partnumber : String
  rows : Int
  cols : Int
  a1offsety : Int
  centerspacingx : Int
  centerspacingy : Int
  plateheight : Int
  skirtheight : Int
  wellwidth : Int
  welllength : Int
  wellcapacity : Int
  bottominset : ℚ
  centerwellposx : ℚ
  centerwellposy : ℚ
  minwellvol : Option ℚ
  maxwellvol : Option ℚ
  maxvoltotal : Option ℚ
  minvolume : Option ℚ
  dropvolume : Option ℚ
deriving Repr, DecidableEq

/-- Derived property shape = (rows, cols). -/
def PlateInfo.shape (p : PlateInfo) : Int × Int := (p.rows, p.cols)

/-- The stored fields of the fixed-geometry (ELW) plate variant
(labware.py lines 52-77): the generic fields minus usage, welllength and
plateformat, which the subclasses PlateInfoELWSrc / PlateInfoELWDest
replace by computed properties (shadowing removes them from the pydantic
field set, so ELW files need not carry those attributes). -/
structure PlateInfoELW where
  platetype : String
  fluid : Option String
  manufacturer : String
  lotnumber : String
  partnumber : String
  rows : Int
  cols : Int
  a1offsety : Int
  centerspacingx : Int
  centerspacingy : Int
  plateheight : Int
  skirtheight : Int
  wellwidth : Int
  wellcapacity : Int
  bottominset : ℚ
  centerwellposx : ℚ
  centerwellposy : ℚ
  minwellvol : Option ℚ
  maxwellvol : Option ℚ
  maxvoltotal : Option ℚ
  minvolume : Option ℚ
  dropvolume : Option ℚ
deriving Repr, DecidableEq

/-- View of a PlateInfoELWSrc through the common PlateInfo field set:
usage is the constant "SRC", welllength mirrors wellwidth, plateformat
is the constant "UNKNOWN". -/
def PlateInfoELW.toSrc (p : PlateInfoELW) : PlateInfo :=
  { platetype := p.platetype, plateformat := "UNKNOWN", usage := "SRC",
    fluid := p.fluid, manufacturer := p.manufacturer,
    lotnumber := p.lotnumber, partnumber := p.partnumber,
    rows := p.rows, cols := p.cols, a1offsety := p.a1offsety,
    centerspacingx := p.centerspacingx, centerspacingy := p.centerspacingy,
    plateheight := p.plateheight, skirtheight := p.skirtheight,
    wellwidth := p.wellwidth, welllength := p.wellwidth,
    wellcapacity := p.wellcapacity, bottominset := p.bottominset,
    centerwellposx := p.centerwellposx, centerwellposy := p.centerwellposy,
    minwellvol := p.minwellvol, maxwellvol := p.maxwellvol,
    maxvoltotal := p.maxvoltotal, minvolume := p.minvolume,
    dropvolume := p.dropvolume }

/-- View of a PlateInfoELWDest through the common PlateInfo field set:
usage is the constant "DEST", welllength mirrors wellwidth, plateformat
is the constant "UNKNOWN". -/
def PlateInfoELW.toDest (p : PlateInfoELW) : PlateInfo :=
  { PlateInfoELW.toSrc p with usage := "DEST" }

/-- EchoLabwareELWX (labware.py lines 80-98): generic document shape,
root EchoLabware with a sourceplates list and a destinationplates list
(the single-field wrapper list elements are flattened to the lists they
carry). -/
structure EchoLabwareELWX where
  sourceplates : List PlateInfo
  destinationplates : List PlateInfo
deriving Repr, DecidableEq

/-- EchoLabwareELW (labware.py lines 88-103): fixed-geometry document
shape. -/
structure EchoLabwareELW where
  sourceplates : List PlateInfoELW
  destinationplates : List PlateInfoELW
deriving Repr, DecidableEq

/-- Labware (labware.py lines 106-110): the aggregate owns one combined
plate list.  The constructor stores the given list as-is; it performs no
validation. -/
structure Labware where
  plates : List PlateInfo
deriving Repr, DecidableEq

/-- Labware.from_raw on the generic shape: concatenates the source list
and the destination list, in that order. -/
def Labware.from_raw_elwx (raw : EchoLabwareELWX) : Labware :=
  { plates := raw.sourceplates ++ raw.destinationplates }

/-- Labware.from_raw on the fixed-geometry shape: the source entries are
viewed with usage "SRC" and the destination entries with usage "DEST",
then concatenated in the same order. -/
def Labware.from_raw_elw (raw : EchoLabwareELW) : Labware :=
  { plates := raw.sourceplates.map PlateInfoELW.toSrc
      ++ raw.destinationplates.map PlateInfoELW.toDest }

/-- Labware.from_file (labware.py lines 119-125), modelled over the
outcomes of the two pydantic_xml parse attempts on the same input bytes
(the parses themselves are external library calls).  The generic ELWX
shape is attempted first; any exception from that attempt is caught and
the fixed-geometry ELW shape is attempted; an error of the second
attempt propagates to the caller. -/
def Labware.from_file (elwx : Except String EchoLabwareELWX)
    (elw : Except String EchoLabwareELW) : Except String Labware :=
  match elwx with
  | Except.ok d => Except.ok (Labware.from_raw_elwx d)
  | Except.error _ =>
    match elw with
    | Except.ok d => Except.ok (Labware.from_raw_elw d)
    | Except.error e => Except.error e

/-- Labware.keys: the platetype of every plate, in list order. -/
def Labware.keys (lw : Labware) : List String :=
  lw.plates.map PlateInfo.platetype

/-- Labware.add (labware.py lines 179-182): raises KeyError when the
platetype already exists (leaving the list untouched), otherwise appends
the plate at the end. -/
def Labware.add (lw : Labware) (p : PlateInfo) : Except String Labware :=
  if p.platetype ∈ lw.keys then
    Except.error ("Plate of type " ++ p.platetype ++ " already exists.")
  else
    Except.ok { plates := lw.plates ++ [p] }

/-- Labware.__getitem__: linear search for the first plate with the
given platetype; KeyError when no plate matches. -/
def Labware.getItem (lw : Labware) (platetype : String) :
    Except String PlateInfo :=
  match lw.plates.find? (fun p => p.platetype == platetype) with
  | some p => Except.ok p
  | Option.none => Except.error platetype

/-- Labware.to_elwx (labware.py lines 160-168): the combined list is
split back into a source sub-list (plates whose usage is exactly "SRC")
and a destination sub-list (plates whose usage is exactly "DEST");
plates with any other usage value appear in neither. -/
def Labware.to_elwx (lw : Labware) : EchoLabwareELWX :=
  { sourceplates := lw.plates.filter (fun p => p.usage == "SRC"),
    destinationplates := lw.plates.filter (fun p => p.usage == "DEST") }

/-- Labware.from_bytes after Labware.to_bytes at the structural level:
to_xml serializes to_elwx's output, and parsing the generated generic
document recovers the same EchoLabwareELWX value (every generic plate
attribute is a plain string/int/float with the standard value-faithful
codec), so the byte round trip is from_raw_elwx after to_elwx. -/
def Labware.roundtrip (lw : Labware) : Labware :=
  Labware.from_raw_elwx lw.to_elwx

/-- The platetype-uniqueness invariant of a Labware collection. -/
def Labware.platetypesUnique (lw : Labware) : Prop :=
  lw.keys.Nodup

/-
Concrete inputs used by witnesses and counterexamples.
-/

/-- A concrete generic source plate (a 384PP-style definition). -/
def samplePlate : PlateInfo :=
  { platetype := "384PP", plateformat := "384STD", usage := "SRC",
    fluid := Option.none, manufacturer := "Labcyte", lotnumber := "L1",
    partnumber := "P1", rows := 16, cols := 24, a1offsety := 0,
    centerspacingx := 4500, centerspacingy := 4500, plateheight := 14400,
    skirtheight := 0, wellwidth := 3300, welllength := 3300,
    wellcapacity := 65, bottominset := 0, centerwellposx := 0,
    centerwellposy := 0, minwellvol := Option.none,
    maxwellvol := Option.none, maxvoltotal := Option.none,
    minvolume := Option.none, dropvolume := Option.none }

/-- A concrete generic destination plate. -/
def samplePlateDest : PlateInfo :=
  { samplePlate with platetype := "1536LDV", usage := "DEST" }

/-- A concrete plate whose usage is neither "SRC" nor "DEST". -/
def samplePlateOther : PlateInfo :=
  { samplePlate with platetype := "WEIRD", usage := "SOURCE" }

/-- A concrete fixed-geometry plate entry. -/
def samplePlateELW : PlateInfoELW :=
  { platetype := "384PP", fluid := Option.none, manufacturer := "Labcyte",
    lotnumber := "L1", partnumber := "P1", rows := 16, cols := 24,
    a1offsety := 0, centerspacingx := 4500, centerspacingy := 4500,
    plateheight := 14400, skirtheight := 0, wellwidth := 3300,
    wellcapacity := 65, bottominset := 0, centerwellposx := 0,
    centerwellposy := 0, minwellvol := Option.none,
    maxwellvol := Option.none, maxvoltotal := Option.none,
    minvolume := Option.none, dropvolume := Option.none }

/-- A concrete validly constructed survey document without a barcode
(for instance, the result of reading a vendor file whose barcode
attribute holds the sentinel "UnknownBarCode"). -/
def sampleSurveyNoBarcode : EchoPlateSurvey :=
  { plate_type := "384PP_AQ_BP", plate_barcode := Option.none,
    timestamp := "2024-01-01T00:00:00",
    instrument_serial_number := "E5XX-1234", vtl := 0, original := 1,
    data_format_version := 1, survey_rows := 0, survey_columns := 0,
    survey_total_wells := 0, wells := [], plate_name := Option.none,
    comment := Option.none }

/-- A concrete survey document value whose declared well count disagrees
with its wells list (one well reported, none present). -/
def sampleBadCountSurvey : EchoPlateSurvey :=
  { sampleSurveyNoBarcode with survey_total_wells := 1 }

/-- A concrete Labware holding a destination plate before a source plate
(so the serialization round trip genuinely reorders it). -/
def sampleLabware : Labware :=
  { plates := [samplePlateDest, samplePlate] }

/-
Theorems.
-/

/-- Helper: a successful check_number_of_wells returns the model
unchanged and certifies the well-count equality. -/
theorem checkNumberOfWells_ok {s t : EchoPlateSurvey}
    (h : s.checkNumberOfWells = Except.ok t) :
    t = s ∧ (s.wells.length : Int) = s.survey_total_wells := by
  unfold EchoPlateSurvey.checkNumberOfWells at h
  split at h
  · cases h
  · next hc =>
    cases h
    refine ⟨rfl, ?_⟩
    simpa using hc

/-- Helper: a successful validator chain returns the model unchanged and
certifies the well-count equality. -/
theorem validate_ok_count {s t : EchoPlateSurvey}
    (h : EchoPlateSurvey.validate s = Except.ok t) :
    t = s ∧ (s.wells.length : Int) = s.survey_total_wells := by
  unfold EchoPlateSurvey.validate at h
  cases hc : s.checkNumberOfWells with
  | error e => rw [hc] at h; cases h
  | ok s2 =>
    rw [hc] at h
    unfold EchoPlateSurvey.checkDataFormatVersion at h
    cases h
    obtain ⟨rfl, hcount⟩ := checkNumberOfWells_ok hc
    exact ⟨rfl, hcount⟩

/-- C1: for every survey document, parsed or programmatically
constructed, whose wells list length differs from survey_total_wells in
either direction, the validator chain fails with the SchemaViolation
error and no document is returned; consequently every document a parse
does return satisfies the well-count equality. -/
theorem survey_wellcount_schema_violation :
    (∀ s : EchoPlateSurvey, (s.wells.length : Int) ≠ s.survey_total_wells →
        EchoPlateSurvey.validate s = Except.error (wellCountMsg s))
    ∧ (∀ rsv : RawSurvey, ∀ s : EchoPlateSurvey,
        surveyRead rsv = Except.ok s →
        (s.wells.length : Int) = s.survey_total_wells) := by
  constructor
  · intro s hne
    unfold EchoPlateSurvey.validate EchoPlateSurvey.checkNumberOfWells
    simp [hne]
  · intro rsv s h
    unfold surveyRead at h
    cases hd : surveyDecode rsv with
    | error e => rw [hd] at h; cases h
    | ok s0 =>
      rw [hd] at h
      obtain ⟨rfl, hcount⟩ := validate_ok_count h
      exact hcount

/-- Witness for C1: a concrete survey reporting one well but holding
none fails validation with the SchemaViolation error. -/
theorem survey_wellcount_schema_violation_witness :
    EchoPlateSurvey.validate sampleBadCountSurvey
      = Except.error (wellCountMsg sampleBadCountSurvey) :=
  survey_wellcount_schema_violation.1 sampleBadCountSurvey (by decide)

/-- C2 counterexample: the Labware constructor runs no uniqueness check,
so a collection holding the same platetype twice is constructed without
error and violates the claimed invariant. -/
theorem labware_dup_constructed :
    ¬ (Labware.mk [samplePlate, samplePlate]).platetypesUnique := by
  simp [Labware.platetypesUnique, Labware.keys]

/-- C2 (amended): only add enforces the platetype-uniqueness invariant;
a Labware whose platetypes are unique stays unique across any
successful add, while the constructor, from_raw and the parsers accept
duplicate platetypes unchecked. -/
theorem labware_add_preserves_unique (lw : Labware) (p : PlateInfo)
    (lw2 : Labware) (hu : lw.platetypesUnique)
    (h : lw.add p = Except.ok lw2) : lw2.platetypesUnique := by
  unfold Labware.add at h
  split at h
  · cases h
  · next hmem =>
    cases h
    unfold Labware.platetypesUnique Labware.keys at hu ⊢
    simp only [List.map_append, List.map_cons, List.map_nil]
    rw [List.nodup_append]
    refine ⟨hu, List.nodup_singleton _, ?_⟩
    intro a ha hb
    simp only [List.mem_singleton] at hb
    subst hb
    exact hmem ha

/-- Witness for the amended C2: adding a fresh platetype to a concrete
unique collection yields a collection that is still unique. -/
theorem labware_add_preserves_unique_witness :
    (Labware.mk [samplePlate, samplePlateDest]).platetypesUnique :=
  labware_add_preserves_unique (Labware.mk [samplePlate]) samplePlateDest
    (Labware.mk [samplePlate, samplePlateDest])
    (by simp [Labware.platetypesUnique, Labware.keys])
    (by simp [Labware.add, Labware.keys, samplePlate, samplePlateDest])

/-- C3 (behaviour of the code at the claimed inputs): the zero-as-absent
codec decodes a numeric 0 to absent and a nonzero number to itself, and
encodes a present value as itself — but the raw XML attribute string
"0" is not Python-equal to the number 0, so a well attribute vl="0"
decodes to a present zero volume, not an absent one; and an absent value
is never encoded as 0, because when_used="unless-none" skips the
serializer on None and the attribute is omitted. -/
theorem floatNullZero_codec_behaviour :
    floatNullZero.decode (PyVal.num 0) = Except.ok Option.none
    ∧ floatNullZero.decode (PyVal.num 3) = Except.ok (some 3)
    ∧ floatNullZero.serialize (some 3) = some (PyVal.num 3)
    ∧ floatNullZero.decode (PyVal.str "0") = Except.ok (some 0)
    ∧ floatNullZero.serialize Option.none = Option.none :=
  ⟨rfl, rfl, rfl, rfl, rfl⟩

/-- C4 (behaviour of the code at the claimed inputs): the barcode codec
decodes the sentinel "UnknownBarCode" to absent, decodes any other
string to itself and encodes a present barcode as itself — but an
absent barcode is never encoded as "UnknownBarCode", because
when_used="unless-none" skips the serializer on None and the attribute
is omitted. -/
theorem barcode_codec_behaviour :
    Barcode.validate (some "UnknownBarCode") = Option.none
    ∧ Barcode.validate (some "ABC123") = some "ABC123"
    ∧ Barcode.serialize (some "ABC123") = some "ABC123"
    ∧ Barcode.serialize Option.none = Option.none :=
  ⟨rfl, rfl, rfl, rfl⟩

/-- Helper: filtering a list by two mutually exclusive and jointly
exhaustive predicates and concatenating the parts permutes the list. -/
theorem filter_pair_perm {α : Type} (P Q : α → Bool) :
    ∀ l : List α,
      (∀ x ∈ l, (P x = true ∧ Q x = false) ∨ (Q x = true ∧ P x = false)) →
      (l.filter P ++ l.filter Q).Perm l := by
  intro l
  induction l with
  | nil => intro _; simp
  | cons a l ih =>
    intro h
    have ha := h a (List.mem_cons_self a l)
    have ih2 := ih (fun x hx => h x (List.mem_cons_of_mem a hx))
    rcases ha with ⟨hp, hq⟩ | ⟨hq, hp⟩
    · simp only [List.filter_cons, hp, hq, if_true, if_false,
        Bool.false_eq_true, List.cons_append]
      exact ih2.cons a
    · simp only [List.filter_cons, hp, hq, if_true, if_false,
        Bool.false_eq_true]
      exact List.perm_middle.trans (ih2.cons a)

/-- C5: for a validly constructed Labware, that is one whose plates all
carry one of the two legal usage values, serializing to the generic XML
shape and parsing the result back reproduces the same plates with the
same field values (the combined list is re-grouped sources-first, so
equivalence is equality as a multiset of plates; no plate or field value
is lost or changed). -/
theorem labware_roundtrip_equiv (lw : Labware)
    (h : ∀ p ∈ lw.plates, p.usage = "SRC" ∨ p.usage = "DEST") :
    (Labware.roundtrip lw).plates.Perm lw.plates := by
  unfold Labware.roundtrip Labware.from_raw_elwx Labware.to_elwx
  apply filter_pair_perm
  intro x hx
  rcases h x hx with h1 | h1
  · left
    constructor <;> simp [h1]
  · right
    constructor <;> simp [h1]

/-- Witness for C5: the round trip of a concrete two-plate Labware
(destination listed first) is a permutation of the original plates. -/
theorem labware_roundtrip_equiv_witness :
    (Labware.roundtrip sampleLabware).plates.Perm sampleLabware.plates :=
  labware_roundtrip_equiv sampleLabware (by decide)

/-- C6 (behaviour of the code at the failing input): a validly
constructed survey whose barcode is absent does not round trip: writing
it omits the barcode attribute (when_used="unless-none" skips the
sentinel-producing serializer on None), and reading the output back
fails on the missing required attribute instead of reproducing the
document. -/
theorem survey_roundtrip_fails_no_barcode :
    surveyRead (surveyWrite sampleSurveyNoBarcode)
      = Except.error ("missing required attribute: barcode") := rfl

/-- C7: add on a Labware that already holds the plate's platetype fails
with the DuplicateKey error before touching the list, leaving the
collection unchanged; add with a fresh platetype succeeds and appends
the plate at the end, keeping the existing plates in order. -/
theorem labware_add_spec (lw : Labware) (p : PlateInfo) :
    (p.platetype ∈ lw.keys →
        lw.add p = Except.error
          ("Plate of type " ++ p.platetype ++ " already exists."))
    ∧ (p.platetype ∉ lw.keys →
        lw.add p = Except.ok { plates := lw.plates ++ [p] }) := by
  constructor <;> intro h <;> simp [Labware.add, h]

/-- Witness for C7: adding a concrete duplicate platetype fails with the
DuplicateKey error. -/
theorem labware_add_spec_witness :
    Labware.add (Labware.mk [samplePlate]) samplePlate
      = Except.error
          ("Plate of type " ++ samplePlate.platetype ++ " already exists.") :=
  (labware_add_spec (Labware.mk [samplePlate]) samplePlate).1
    (by simp [Labware.keys])

/-- C8: reading a fixed-geometry (ELW) document yields a Labware whose
plate list is the source entries followed by the destination entries;
every plate coming from the source list reports usage "SRC" (the code's
literal for SOURCE), every plate from the destination list reports usage
"DEST" (DESTINATION), and every plate's welllength equals its
wellwidth. -/
theorem elw_variant_fields (raw : EchoLabwareELW) :
    (Labware.from_raw_elw raw).plates
      = raw.sourceplates.map PlateInfoELW.toSrc
        ++ raw.destinationplates.map PlateInfoELW.toDest
    ∧ (∀ p ∈ raw.sourceplates.map PlateInfoELW.toSrc,
        p.usage = "SRC" ∧ p.welllength = p.wellwidth)
    ∧ (∀ p ∈ raw.destinationplates.map PlateInfoELW.toDest,
        p.usage = "DEST" ∧ p.welllength = p.wellwidth) := by
  refine ⟨rfl, ?_, ?_⟩ <;>
    · intro p hp
      simp only [List.mem_map] at hp
      obtain ⟨q, _, rfl⟩ := hp
      exact ⟨rfl, rfl⟩

/-- Witness for C8: the view of a concrete ELW source entry reports
usage "SRC" and equal welllength and wellwidth. -/
theorem elw_variant_fields_witness :
    (PlateInfoELW.toSrc samplePlateELW).usage = "SRC"
    ∧ (PlateInfoELW.toSrc samplePlateELW).welllength
        = (PlateInfoELW.toSrc samplePlateELW).wellwidth :=
  (elw_variant_fields
      { sourceplates := [samplePlateELW], destinationplates := [] }).2.1
    (PlateInfoELW.toSrc samplePlateELW) (by simp)

/-- C9: the labware loader uses the generic (ELWX) parse whenever it
succeeds, falls back to the fixed-geometry (ELW) parse on any failure of
the first attempt instead of reporting an error, and when both attempts
fail it surfaces exactly the second (fixed-geometry) attempt's error. -/
theorem labware_loader_fallback (dx : EchoLabwareELWX)
    (dw : EchoLabwareELW) (e1 e2 : String) :
    Labware.from_file (Except.ok dx) (Except.ok dw)
        = Except.ok (Labware.from_raw_elwx dx)
    ∧ Labware.from_file (Except.ok dx) (Except.error e2)
        = Except.ok (Labware.from_raw_elwx dx)
    ∧ Labware.from_file (Except.error e1) (Except.ok dw)
        = Except.ok (Labware.from_raw_elw dw)
    ∧ Labware.from_file (Except.error e1) (Except.error e2)
        = Except.error e2 :=
  ⟨rfl, rfl, rfl, rfl⟩

/-- C10: serializing a Labware to the generic XML shape silently drops
every plate whose usage is neither the literal "SRC" nor the literal
"DEST": such a plate is a member of neither the source sub-list nor the
destination sub-list of the output. -/
theorem to_elwx_drops_other_usage (lw : Labware) (p : PlateInfo)
    (h1 : p.usage ≠ "SRC") (h2 : p.usage ≠ "DEST") :
    p ∉ (Labware.to_elwx lw).sourceplates
    ∧ p ∉ (Labware.to_elwx lw).destinationplates := by
  refine ⟨fun hmem => ?_, fun hmem => ?_⟩
  · simp only [Labware.to_elwx, List.mem_filter, beq_iff_eq] at hmem
    exact h1 hmem.2
  · simp only [Labware.to_elwx, List.mem_filter, beq_iff_eq] at hmem
    exact h2 hmem.2

/-- Witness for C10: a concrete plate with usage "SOURCE" (not one of
the two recognized literals) appears in neither output sub-list. -/
theorem to_elwx_drops_other_usage_witness :
    samplePlateOther
        ∉ (Labware.to_elwx (Labware.mk [samplePlateOther])).sourceplates
    ∧ samplePlateOther
        ∉ (Labware.to_elwx (Labware.mk [samplePlateOther])).destinationplates :=
  to_elwx_drops_other_usage (Labware.mk [samplePlateOther]) samplePlateOther
    (by decide) (by decide)

/-- Helper: decoding a written feature recovers it exactly. -/
theorem featureDecode_write (f : SignalFeature) :
    featureDecode (featureWrite f) = Except.ok f := rfl

/-- Helper: the mapM loop over a written feature list accumulates the
decoded features. -/
theorem mapM_loop_feature (l : List SignalFeature) :
    ∀ acc : List SignalFeature,
      List.mapM.loop featureDecode (l.map featureWrite) acc
        = Except.ok (acc.reverse ++ l) := by
  induction l with
  | nil => intro acc; simp [List.mapM.loop]; rfl
  | cons a l ih =>
    intro acc
    have ha : featureDecode (featureWrite a) = Except.ok a :=
      featureDecode_write a
    simp [List.mapM.loop, ha, ih]
    rfl

/-- Helper: decoding a written feature list recovers it exactly, order
preserved. -/
theorem mapM_feature_roundtrip (l : List SignalFeature) :
    (l.map featureWrite).mapM featureDecode = Except.ok l := by
  simpa [List.mapM] using mapM_loop_feature l []

/-- Helper: decoding a written signal recovers it exactly. -/
theorem signalDecode_write (e : EchoSignal) :
    signalDecode (signalWrite e) = Except.ok e := by
  unfold signalDecode signalWrite
  simp [reqAttr, List.mapM, mapM_loop_feature]
  rfl

/-- Helper: bind on a successful Except computation. -/
theorem okBind {e a b : Type} (x : a) (f : a → Except e b) :
    (Except.ok x : Except e a) >>= f = f x := rfl

/-- Helper: map on a successful Except computation. -/
theorem okMap {e a b : Type} (g : a → b) (x : a) :
    g <$> (Except.ok x : Except e a) = Except.ok (g x) := rfl

/-- Helper: decoding a written FloatNullZero value recovers it when the
value is a present nonzero number. -/
theorem floatNullZero_decode_write {q : ℚ} (hq : q ≠ 0) :
    floatNullZero.decode (PyVal.num q) = Except.ok (some q) := by
  unfold floatNullZero.decode floatNullZero.validate floatNullZero.coerce
  simp [pyEq, hq]

/-- Helper: the NonNegativeInt codec accepts the image of a Nat. -/
theorem nonNegInt_natCast (n : Nat) (name : String) :
    nonNegInt (n : Int) name = Except.ok n := by
  simp [nonNegInt]

/-- Helper: decoding a written well recovers it exactly, provided both
of its optional volumes are present and nonzero (an absent volume makes
the written attribute be omitted and the decode fail; a zero volume
cannot occur in a validly constructed well). -/
theorem wellDecode_write (w : WellSurvey)
    (hv : ∃ q, w.volume = some q ∧ q ≠ 0)
    (hc : ∃ q, w.current_volume = some q ∧ q ≠ 0) :
    wellDecode (wellWrite w) = Except.ok w := by
  obtain ⟨qv, hqv, hqv0⟩ := hv
  obtain ⟨qc, hqc, hqc0⟩ := hc
  unfold wellDecode wellWrite
  simp only [hqv, hqc]
  simp only [reqAttr, floatNullZero.serialize, okBind, okMap,
        nonNegInt_natCast, floatNullZero_decode_write hqv0,
        floatNullZero_decode_write hqc0, signalDecode_write]
  rw [← hqv, ← hqc]
  rfl

/-- Helper: the mapM loop over written wells accumulates the decoded
wells, provided every well has present nonzero volumes. -/
theorem mapM_loop_well (l : List WellSurvey)
    (h : ∀ w ∈ l, (∃ q, w.volume = some q ∧ q ≠ 0)
        ∧ ∃ q, w.current_volume = some q ∧ q ≠ 0) :
    ∀ acc : List WellSurvey,
      List.mapM.loop wellDecode (l.map wellWrite) acc
        = Except.ok (acc.reverse ++ l) := by
  induction l with
  | nil => intro acc; simp [List.mapM.loop]; rfl
  | cons a l ih =>
    intro acc
    have ha := h a (List.mem_cons_self a l)
    have hd : wellDecode (wellWrite a) = Except.ok a :=
      wellDecode_write a ha.1 ha.2
    have ih2 := ih fun w hw => h w (List.mem_cons_of_mem a hw)
    simp [List.mapM.loop, hd, ih2]
    rfl

/-- Helper: decoding a written survey recovers it exactly (before model
validation), provided the barcode is a present non-sentinel string and
every well volume is present and nonzero. -/
theorem surveyDecode_write (s : EchoPlateSurvey)
    (hb : ∃ b, s.plate_barcode = some b ∧ b ≠ "UnknownBarCode")
    (hw : ∀ w ∈ s.wells, (∃ q, w.volume = some q ∧ q ≠ 0)
        ∧ ∃ q, w.current_volume = some q ∧ q ≠ 0) :
    surveyDecode (surveyWrite s) = Except.ok s := by
  obtain ⟨b, hbv, hbs⟩ := hb
  have hwells : List.mapM wellDecode (s.wells.map wellWrite)
      = Except.ok s.wells := by
    simpa [List.mapM] using mapM_loop_well s.wells hw []
  have hval : Barcode.validate (some b) = some b := by
    simp [Barcode.validate, hbs]
  unfold surveyDecode surveyWrite
  simp only [hbv, Barcode.serialize, reqAttr, okBind, okMap, hwells, hval]
  rw [← hbv]
  rfl

/-- The survey write/read round trip returns the document unchanged,
well order preserved, for every validly constructed document whose
barcode is present (and not the sentinel string) and whose well volumes
are all present and nonzero; together with the failing evaluation above
this isolates the round-trip failure to the absent-value encoding. -/
theorem survey_roundtrip_ok (s : EchoPlateSurvey)
    (hb : ∃ b, s.plate_barcode = some b ∧ b ≠ "UnknownBarCode")
    (hw : ∀ w ∈ s.wells, (∃ q, w.volume = some q ∧ q ≠ 0)
        ∧ ∃ q, w.current_volume = some q ∧ q ≠ 0)
    (hcount : (s.wells.length : Int) = s.survey_total_wells) :
    surveyRead (surveyWrite s) = Except.ok s := by
  have hdec := surveyDecode_write s hb hw
  unfold surveyRead
  rw [hdec]
  unfold EchoPlateSurvey.validate EchoPlateSurvey.checkNumberOfWells
    EchoPlateSurvey.checkDataFormatVersion
  simp [hcount]
